import Mathlib

/-!
# Verification of the budget/allocation/goal computation engine (`utils.py`)

Shallow embedding of the four pure computation functions of the finance
application's engine:

* `calculate_budget_breakdown`  (50/30/20 budget breakdown)
* `calculate_asset_allocation`  (age/risk based asset allocation)
* `calculate_goal_savings`      (monthly savings needed for a goal)
* `calculate_financial_health_score` (0-100 composite health score)

Modelling conventions:

* Python numbers (ints and floats) are modelled as exact rationals `ℚ`;
  ages and month/year fields, which are `int` in the application
  (`int(request.form['age'])`, SQL `Integer` columns), are modelled as `ℤ`.
* Python's builtin `round` uses banker's rounding (round half to even);
  `pyRound` reproduces it on `ℚ`.
* Python's substring test `needle in haystack` on strings is modelled by
  `containsSub` on `List Char`, and `str.lower()` by mapping `Char.toLower`.
* `datetime.now()` inside `calculate_goal_savings` is modelled by an explicit
  `today : PyDate` argument holding the value that call returns; `PyDate`
  carries `year`, `month` and `day` fields like a Python `datetime`, and the
  embedding only ever reads `year` and `month`, mirroring the source.
-/

/-- Python `round`: round half to even (banker's rounding), on exact rationals. -/
def pyRound (q : ℚ) : ℤ :=
  if q - (q.floor : ℚ) < 1/2 then q.floor
  else if 1/2 < q - (q.floor : ℚ) then q.floor + 1
  else if q.floor % 2 = 0 then q.floor else q.floor + 1

/-- Python substring membership `needle in haystack` for character lists. -/
def containsSub (needle : List Char) : List Char → Bool
  | [] => needle.isPrefixOf []
  | c :: rest => needle.isPrefixOf (c :: rest) || containsSub needle rest

/-- Python `str.lower()` (the categories in question are ASCII). -/
def pyLower (s : List Char) : List Char := s.map Char.toLower

/-- Transaction type tag: the application stores `'income'` or `'expense'`. -/
inductive TType where
  | income
  | expense
deriving DecidableEq, Repr

/-- A transaction as consumed by the engine: `{type, category, amount}`
(the date field is never read by the computation functions). -/
structure Transaction where
  type : TType
  category : List Char
  amount : ℚ
deriving DecidableEq, Repr

/-- A user profile as consumed by the engine (fields read via `.get`). -/
structure Profile where
  age : ℤ
  risk_tolerance : String
  monthly_salary : ℚ
  monthly_expenses : ℚ
  existing_investments : ℚ
  debt_amount : ℚ
deriving DecidableEq, Repr

/-- The year/month/day of a Python `datetime` (time-of-day is irrelevant
to the engine; `calculate_goal_savings` reads only `year` and `month`). -/
structure PyDate where
  year : ℤ
  month : ℤ
  day : ℤ
deriving DecidableEq, Repr

/-- A savings goal as consumed by the engine. -/
structure Goal where
  target_amount : ℚ
  current_amount : ℚ
  target_date : PyDate
deriving DecidableEq, Repr

/-- `needs_categories` from `calculate_budget_breakdown`. -/
def needs_categories : List (List Char) :=
  ["groceries", "rent", "utilities", "transportation", "insurance",
   "healthcare"].map String.toList

/-- `wants_categories` from `calculate_budget_breakdown`. -/
def wants_categories : List (List Char) :=
  ["entertainment", "dining", "shopping", "hobbies", "travel"].map String.toList

/-- `any(need in category for need in needs_categories)` (on the lowered category). -/
def isNeedCategory (category : List Char) : Bool :=
  needs_categories.any (fun need => containsSub need category)

/-- `any(want in category for want in wants_categories)` (on the lowered category). -/
def isWantCategory (category : List Char) : Bool :=
  wants_categories.any (fun want => containsSub want category)

/-- `sum(t['amount'] for t in transactions if t['type'] == 'income')`. -/
def total_income : List Transaction → ℚ
  | [] => 0
  | t :: ts => (if t.type = TType.income then t.amount else 0) + total_income ts

/-- `sum(t['amount'] for t in transactions if t['type'] == 'expense')`. -/
def total_expenses : List Transaction → ℚ
  | [] => 0
  | t :: ts => (if t.type = TType.expense then t.amount else 0) + total_expenses ts

/-- The `needs_total` accumulated by the loop in `calculate_budget_breakdown`:
expenses whose lowered category contains a needs keyword. -/
def needs_total : List Transaction → ℚ
  | [] => 0
  | t :: ts =>
    (if t.type = TType.expense then
      if isNeedCategory (pyLower t.category) then t.amount else 0
     else 0) + needs_total ts

/-- The `wants_total` accumulated by the loop: expenses whose lowered category
contains no needs keyword (the `if` branch was not taken) but contains a
wants keyword (the `elif` branch). -/
def wants_total : List Transaction → ℚ
  | [] => 0
  | t :: ts =>
    (if t.type = TType.expense then
      if isNeedCategory (pyLower t.category) then 0
      else if isWantCategory (pyLower t.category) then t.amount else 0
     else 0) + wants_total ts

/-- One `{amount, percentage, recommended, status}` bucket of the breakdown. -/
structure Bucket where
  amount : ℚ
  percentage : ℚ
  recommended : ℚ
  status : String
deriving DecidableEq, Repr

/-- The dictionary returned by `calculate_budget_breakdown`. -/
structure BudgetBreakdown where
  total_income : ℚ
  total_expenses : ℚ
  needs : Bucket
  wants : Bucket
  savings : Bucket
deriving DecidableEq, Repr

/-- `calculate_budget_breakdown` from `utils.py`. -/
def calculate_budget_breakdown (transactions : List Transaction) : BudgetBreakdown :=
  let ti := total_income transactions
  let te := total_expenses transactions
  let needsT := needs_total transactions
  let wantsT := wants_total transactions
  let savingsT := ti - te
  let needsPct := if ti > 0 then needsT / ti * 100 else 0
  let wantsPct := if ti > 0 then wantsT / ti * 100 else 0
  let savingsPct := if ti > 0 then savingsT / ti * 100 else 0
  let recNeeds := ti * (50/100)
  let recWants := ti * (30/100)
  let recSavings := ti * (20/100)
  { total_income := ti
    total_expenses := te
    needs := { amount := needsT, percentage := needsPct, recommended := recNeeds,
               status := if needsT ≤ recNeeds then "good" else "over" }
    wants := { amount := wantsT, percentage := wantsPct, recommended := recWants,
               status := if wantsT ≤ recWants then "good" else "over" }
    savings := { amount := savingsT, percentage := savingsPct, recommended := recSavings,
                 status := if savingsT ≥ recSavings then "good" else "under" } }

/-- The dictionary returned by `calculate_asset_allocation`. -/
structure Allocation where
  equity : ℤ
  debt : ℤ
  gold : ℤ
  emergency_fund_amount : ℚ
  emergency_fund_months : ℤ
deriving DecidableEq, Repr

/-- The integer `equity_allocation` computed by `calculate_asset_allocation`:
`base_equity = max(100 - age, 20)` adjusted by risk tolerance.  Any string
other than `'conservative'` or `'aggressive'` falls into the `else` branch. -/
def equity_allocation (p : Profile) : ℤ :=
  let base_equity : ℤ := max (100 - p.age) 20
  if p.risk_tolerance = "conservative" then max (base_equity - 20) 20
  else if p.risk_tolerance = "aggressive" then min (base_equity + 20) 80
  else base_equity

/-- `calculate_asset_allocation` from `utils.py`.  `0.7` and `0.2` are the
float literals of the source, modelled as exact rationals. -/
def calculate_asset_allocation (p : Profile) : Allocation :=
  let equity := equity_allocation p
  let remaining : ℚ := ((100 - equity : ℤ) : ℚ)
  let debt_allocation : ℚ := remaining * (7/10)
  let gold_allocation : ℚ := remaining * (2/10)
  { equity := pyRound (equity : ℚ)
    debt := pyRound debt_allocation
    gold := pyRound gold_allocation
    emergency_fund_amount := p.monthly_salary * 6
    emergency_fund_months := 6 }

/-- `months_remaining` in `calculate_goal_savings`: calendar month difference
between the goal's target date and `today`; day-of-month is not read. -/
def months_remaining (goal : Goal) (today : PyDate) : ℤ :=
  (goal.target_date.year - today.year) * 12 + (goal.target_date.month - today.month)

/-- `calculate_goal_savings` from `utils.py`.  The Python source calls
`datetime.now()` internally; `today` is the value that call returns, made
explicit so the ambient-clock dependence is visible in the model. -/
def calculate_goal_savings (goal : Goal) (today : PyDate) : ℚ :=
  if months_remaining goal today ≤ 0 then goal.target_amount - goal.current_amount
  else
    max ((goal.target_amount - goal.current_amount) / (months_remaining goal today : ℚ)) 0

/-- Emergency-fund sub-score (max 25 points) of
`calculate_financial_health_score`. -/
def score_emergency (p : Profile) : ℚ :=
  let efm : ℚ := if p.monthly_expenses > 0
    then p.existing_investments / p.monthly_expenses else 0
  if efm ≥ 6 then 25
  else if efm ≥ 3 then 15
  else if efm ≥ 1 then 8
  else 0

/-- Debt-to-income sub-score (max 25 points). -/
def score_debt (p : Profile) : ℚ :=
  if p.monthly_salary > 0 then
    let dti := p.debt_amount / (p.monthly_salary * 12)
    if dti < 2/10 then 25
    else if dti < 4/10 then 15
    else if dti < 6/10 then 8
    else 0
  else 0

/-- Savings-rate sub-score (max 25 points); only scored when the transaction
list is non-empty (Python truthiness) and total income is positive. -/
def score_savings (transactions : List Transaction) : ℚ :=
  if transactions.isEmpty then 0
  else
    let ti := total_income transactions
    let te := total_expenses transactions
    if ti > 0 then
      let rate := (ti - te) / ti
      if rate ≥ 3/10 then 25
      else if rate ≥ 2/10 then 20
      else if rate ≥ 1/10 then 15
      else if rate ≥ 1/20 then 10
      else 0
    else 0

/-- Goal-progress sub-score (max 25 points): goals with non-positive target
are skipped by the loop but still counted in the denominator `len(goals)`. -/
def score_goals (goals : List Goal) : ℚ :=
  if goals.isEmpty then 0
  else
    let goal_progress_total : ℚ :=
      (goals.map (fun g =>
        if g.target_amount > 0 then min (g.current_amount / g.target_amount) 1
        else 0)).sum
    goal_progress_total / (goals.length : ℚ) * 25

/-- `calculate_financial_health_score` from `utils.py`:
`min(round(score), 100)` over the four accumulated sub-scores. -/
def calculate_financial_health_score (p : Profile) (transactions : List Transaction)
    (goals : List Goal) : ℤ :=
  let score := score_emergency p + score_debt p + score_savings transactions
    + score_goals goals
  min (pyRound score) 100

/-! ## Helper lemmas -/

/-- `Rat.floor` agrees with the order-theoretic floor `⌊q⌋`. -/
theorem ratFloor_eq_intFloor (q : ℚ) : q.floor = ⌊q⌋ :=
  (Rat.floor_def' q).trans Rat.floor_def.symm

/-- Python `round` of an integer is that integer. -/
theorem pyRound_intCast (n : ℤ) : pyRound ((n : ℤ) : ℚ) = n := by
  unfold pyRound
  rw [ratFloor_eq_intFloor, Int.floor_intCast]
  norm_num

/-- Python `round` of a non-negative rational is non-negative. -/
theorem pyRound_nonneg (q : ℚ) (h : 0 ≤ q) : 0 ≤ pyRound q := by
  unfold pyRound
  rw [ratFloor_eq_intFloor]
  have h0 : 0 ≤ ⌊q⌋ := Int.floor_nonneg.mpr h
  split_ifs <;> omega

/-- Python `round` never exceeds an integer upper bound of its argument. -/
theorem pyRound_le (q : ℚ) (n : ℤ) (h : q ≤ (n : ℚ)) : pyRound q ≤ n := by
  unfold pyRound
  rw [ratFloor_eq_intFloor]
  have hf : ⌊q⌋ ≤ n := by
    have h2 := Int.floor_le_floor h
    rwa [Int.floor_intCast] at h2
  have hq : (⌊q⌋ : ℚ) ≤ q := Int.floor_le q
  split_ifs with h1 h2 h3
  · exact hf
  · have hlt : (⌊q⌋ : ℚ) < q := by linarith
    have : ⌊q⌋ < n := by exact_mod_cast lt_of_lt_of_le hlt h
    omega
  · exact hf
  · have hge : (1:ℚ)/2 ≤ q - ⌊q⌋ := le_of_not_lt h1
    have hlt : (⌊q⌋ : ℚ) < q := by linarith
    have : ⌊q⌋ < n := by exact_mod_cast lt_of_lt_of_le hlt h
    omega

/-- `pyRound (100 : ℚ) = 100`, the value arising from a perfect health score. -/
theorem pyRound_hundred : pyRound (100 : ℚ) = 100 := by
  have h := pyRound_intCast 100
  norm_num at h
  exact h

/-! ## Claim theorems -/

/-- C9: `calculate_asset_allocation` returns equity 80 for a profile with age 25
and risk tolerance "aggressive" (min(100-25+20, 80)), and equity 20 for a
profile with age 70 and risk tolerance "conservative" (max(100-70-20, 20)),
whatever the monetary fields of the profiles are. -/
theorem C9_equity_allocation_examples (s e i d s' e' i' d' : ℚ) :
    (calculate_asset_allocation
      { age := 25, risk_tolerance := "aggressive", monthly_salary := s,
        monthly_expenses := e, existing_investments := i, debt_amount := d }).equity = 80 ∧
    (calculate_asset_allocation
      { age := 70, risk_tolerance := "conservative", monthly_salary := s',
        monthly_expenses := e', existing_investments := i', debt_amount := d' }).equity = 20 :=
  ⟨by with_unfolding_all rfl, by with_unfolding_all rfl⟩

/-- C8: when the total income of a transaction list is 0, all three bucket
percentages of `calculate_budget_breakdown` are 0: the division by
`total_income` is guarded by `total_income > 0`. -/
theorem C8_zero_income_percentages (ts : List Transaction)
    (h : total_income ts = 0) :
    (calculate_budget_breakdown ts).needs.percentage = 0 ∧
    (calculate_budget_breakdown ts).wants.percentage = 0 ∧
    (calculate_budget_breakdown ts).savings.percentage = 0 := by
  simp [calculate_budget_breakdown, h]

/-- Witness for C8 at a concrete expense-only transaction list. -/
theorem C8_zero_income_percentages_witness :
    total_income [⟨TType.expense, "rent".toList, 75⟩] = 0 ∧
    ((calculate_budget_breakdown [⟨TType.expense, "rent".toList, 75⟩]).needs.percentage = 0 ∧
     (calculate_budget_breakdown [⟨TType.expense, "rent".toList, 75⟩]).wants.percentage = 0 ∧
     (calculate_budget_breakdown [⟨TType.expense, "rent".toList, 75⟩]).savings.percentage = 0) :=
  ⟨by with_unfolding_all rfl,
   C8_zero_income_percentages _ (by with_unfolding_all rfl)⟩

/-- C3: the Python source of `calculate_goal_savings` reads `datetime.now()`
internally (utils.py line 105).  With that clock reading made explicit as the
`today` argument, the same goal evaluated at two different clock readings
yields two different results — the output is not a function of the goal alone,
so the claim that "now" is a caller-supplied parameter does not hold of the
code. -/
theorem C3_clock_dependence :
    calculate_goal_savings
      { target_amount := 1200, current_amount := 0,
        target_date := { year := 2025, month := 6, day := 1 } }
      { year := 2025, month := 1, day := 15 } = 240 ∧
    calculate_goal_savings
      { target_amount := 1200, current_amount := 0,
        target_date := { year := 2025, month := 6, day := 1 } }
      { year := 2025, month := 6, day := 20 } = 1200 ∧
    (240 : ℚ) ≠ 1200 :=
  ⟨by with_unfolding_all rfl, by with_unfolding_all rfl, by norm_num⟩

/-- C5: `calculate_goal_savings` uses the calendar-month difference only:
(1) a target date in the same calendar month as today yields
`target_amount - current_amount`; (2) target 120000, current 0 and a target
date exactly 12 calendar months ahead yield 10000; (3) the day-of-month of
both dates is ignored entirely. -/
theorem C5_calendar_month_only :
    (∀ (g : Goal) (today : PyDate),
      g.target_date.year = today.year → g.target_date.month = today.month →
      calculate_goal_savings g today = g.target_amount - g.current_amount) ∧
    (∀ (today : PyDate) (d : ℤ),
      calculate_goal_savings
        { target_amount := 120000, current_amount := 0,
          target_date := { year := today.year + 1, month := today.month, day := d } }
        today = 10000) ∧
    (∀ (g : Goal) (today : PyDate) (d d' : ℤ),
      calculate_goal_savings
        { g with target_date := { g.target_date with day := d } }
        { today with day := d' } = calculate_goal_savings g today) := by
  refine ⟨?_, ?_, ?_⟩
  · intro g today hy hm
    unfold calculate_goal_savings months_remaining
    rw [hy, hm]
    simp
  · intro today d
    have hm : months_remaining
        { target_amount := 120000, current_amount := 0,
          target_date := { year := today.year + 1, month := today.month, day := d } }
        today = 12 := by
      unfold months_remaining
      ring
    unfold calculate_goal_savings
    rw [hm]
    norm_num
  · intro g today d d'
    rfl

/-- Witness for C5 at concrete goals and dates. -/
theorem C5_calendar_month_only_witness :
    (calculate_goal_savings
      { target_amount := 500, current_amount := 200,
        target_date := { year := 2025, month := 10, day := 28 } }
      { year := 2025, month := 10, day := 3 } = 500 - 200) ∧
    (calculate_goal_savings
      { target_amount := 120000, current_amount := 0,
        target_date := { year := 2026, month := 10, day := 5 } }
      { year := 2025, month := 10, day := 12 } = 10000) ∧
    (calculate_goal_savings
      { target_amount := 500, current_amount := 200,
        target_date := { year := 2025, month := 12, day := 7 } }
      { year := 2025, month := 10, day := 2 } =
     calculate_goal_savings
      { target_amount := 500, current_amount := 200,
        target_date := { year := 2025, month := 12, day := 1 } }
      { year := 2025, month := 10, day := 9 }) :=
  ⟨C5_calendar_month_only.1 _ _ rfl rfl,
   C5_calendar_month_only.2.1 { year := 2025, month := 10, day := 12 } 5,
   C5_calendar_month_only.2.2
     { target_amount := 500, current_amount := 200,
       target_date := { year := 2025, month := 12, day := 1 } }
     { year := 2025, month := 10, day := 9 } 7 2⟩

/-- C2 (amended): whenever `months_remaining` is positive, the monthly savings
returned by `calculate_goal_savings` is non-negative, and an already-met or
over-funded goal yields exactly 0; when `months_remaining ≤ 0` the code
instead returns `target_amount - current_amount`, which is negative for an
over-funded goal (see the counterexample). -/
theorem C2_amended_nonneg_when_future (g : Goal) (today : PyDate)
    (h : 0 < months_remaining g today) :
    0 ≤ calculate_goal_savings g today ∧
    (g.target_amount ≤ g.current_amount → calculate_goal_savings g today = 0) := by
  unfold calculate_goal_savings
  rw [if_neg (by omega)]
  constructor
  · exact le_max_right _ _
  · intro hle
    have hm : (0:ℚ) < (months_remaining g today : ℚ) := by exact_mod_cast h
    have hdiv : (g.target_amount - g.current_amount) / (months_remaining g today : ℚ) ≤ 0 := by
      apply div_nonpos_of_nonpos_of_nonneg
      · linarith
      · linarith
    exact max_eq_right hdiv

/-- Witness for C2 (amended) at a concrete over-funded goal six months ahead. -/
theorem C2_amended_nonneg_when_future_witness :
    0 < months_remaining
        { target_amount := 100, current_amount := 200,
          target_date := { year := 2025, month := 12, day := 1 } }
        { year := 2025, month := 6, day := 1 } ∧
    (0 ≤ calculate_goal_savings
        { target_amount := 100, current_amount := 200,
          target_date := { year := 2025, month := 12, day := 1 } }
        { year := 2025, month := 6, day := 1 } ∧
     ((100 : ℚ) ≤ 200 → calculate_goal_savings
        { target_amount := 100, current_amount := 200,
          target_date := { year := 2025, month := 12, day := 1 } }
        { year := 2025, month := 6, day := 1 } = 0)) :=
  ⟨by decide, C2_amended_nonneg_when_future _ _ (by decide)⟩

/-- C2 counterexample: an over-funded goal (current 200 ≥ target 100) whose
target date falls in the same calendar month as the clock reading makes
`calculate_goal_savings` return -100, a negative value, refuting "never
negative" and "an already-met or over-funded goal yields 0" as stated. -/
theorem C2_counterexample :
    (100 : ℚ) ≤ 200 ∧
    calculate_goal_savings
      { target_amount := 100, current_amount := 200,
        target_date := { year := 2025, month := 6, day := 15 } }
      { year := 2025, month := 6, day := 1 } = -100 ∧
    (-100 : ℚ) < 0 :=
  ⟨by norm_num, by with_unfolding_all rfl, by norm_num⟩

/-- C7: an expense whose lowered category matches no needs keyword and no
wants keyword (such as "Netflix Subscription") contributes to neither
`needs.amount` nor `wants.amount` but is still included in `total_expenses`;
an expense whose lowered category matches a needs keyword goes to
`needs.amount` and never to `wants.amount` (needs is checked before wants),
even if it also matches a wants keyword. -/
theorem C7_keyword_classification (ts : List Transaction) (t u : Transaction)
    (ht : t.type = TType.expense)
    (htn : isNeedCategory (pyLower t.category) = false)
    (htw : isWantCategory (pyLower t.category) = false)
    (hu : u.type = TType.expense)
    (hun : isNeedCategory (pyLower u.category) = true) :
    ((calculate_budget_breakdown (t :: ts)).needs.amount =
        (calculate_budget_breakdown ts).needs.amount ∧
     (calculate_budget_breakdown (t :: ts)).wants.amount =
        (calculate_budget_breakdown ts).wants.amount ∧
     (calculate_budget_breakdown (t :: ts)).total_expenses =
        t.amount + (calculate_budget_breakdown ts).total_expenses) ∧
    ((calculate_budget_breakdown (u :: ts)).needs.amount =
        u.amount + (calculate_budget_breakdown ts).needs.amount ∧
     (calculate_budget_breakdown (u :: ts)).wants.amount =
        (calculate_budget_breakdown ts).wants.amount) := by
  simp [calculate_budget_breakdown, needs_total, wants_total, total_expenses,
    ht, htn, htw, hu, hun]

/-- Witness for C7: "Netflix Subscription" matches no keyword list;
"Rent Entertainment" matches both lists and is classified as a need. -/
theorem C7_keyword_classification_witness :
    ((calculate_budget_breakdown
        [⟨TType.expense, "Netflix Subscription".toList, 100⟩,
         ⟨TType.income, "salary".toList, 1000⟩]).needs.amount =
      (calculate_budget_breakdown
        [⟨TType.income, "salary".toList, 1000⟩]).needs.amount ∧
     (calculate_budget_breakdown
        [⟨TType.expense, "Netflix Subscription".toList, 100⟩,
         ⟨TType.income, "salary".toList, 1000⟩]).wants.amount =
      (calculate_budget_breakdown
        [⟨TType.income, "salary".toList, 1000⟩]).wants.amount ∧
     (calculate_budget_breakdown
        [⟨TType.expense, "Netflix Subscription".toList, 100⟩,
         ⟨TType.income, "salary".toList, 1000⟩]).total_expenses =
      100 + (calculate_budget_breakdown
        [⟨TType.income, "salary".toList, 1000⟩]).total_expenses) ∧
    ((calculate_budget_breakdown
        [⟨TType.expense, "Rent Entertainment".toList, 50⟩,
         ⟨TType.income, "salary".toList, 1000⟩]).needs.amount =
      50 + (calculate_budget_breakdown
        [⟨TType.income, "salary".toList, 1000⟩]).needs.amount ∧
     (calculate_budget_breakdown
        [⟨TType.expense, "Rent Entertainment".toList, 50⟩,
         ⟨TType.income, "salary".toList, 1000⟩]).wants.amount =
      (calculate_budget_breakdown
        [⟨TType.income, "salary".toList, 1000⟩]).wants.amount) :=
  C7_keyword_classification [⟨TType.income, "salary".toList, 1000⟩]
    ⟨TType.expense, "Netflix Subscription".toList, 100⟩
    ⟨TType.expense, "Rent Entertainment".toList, 50⟩
    rfl (by decide) (by decide) rfl (by decide)

/-- C10: when all transaction amounts are non-negative, the needs and wants
bucket amounts sum to at most `total_expenses`: every expense lands in at
most one bucket, and every bucketed expense is also counted in the total. -/
theorem C10_buckets_le_total_expenses (ts : List Transaction)
    (h : ∀ t ∈ ts, 0 ≤ t.amount) :
    needs_total ts + wants_total ts ≤ total_expenses ts := by
  induction ts with
  | nil => simp [needs_total, wants_total, total_expenses]
  | cons t ts ih =>
    have h0 : 0 ≤ t.amount := h t (List.mem_cons_self t ts)
    have ih' := ih (fun x hx => h x (List.mem_cons_of_mem t hx))
    simp only [needs_total, wants_total, total_expenses]
    split_ifs <;> linarith

/-- Witness for C10 at a concrete mixed transaction list. -/
theorem C10_buckets_le_total_expenses_witness :
    (∀ t ∈ ([⟨TType.income, "salary".toList, 1000⟩,
             ⟨TType.expense, "Netflix Subscription".toList, 100⟩,
             ⟨TType.expense, "rent".toList, 500⟩,
             ⟨TType.expense, "dining out".toList, 60⟩] : List Transaction),
        0 ≤ t.amount) ∧
    needs_total [⟨TType.income, "salary".toList, 1000⟩,
                 ⟨TType.expense, "Netflix Subscription".toList, 100⟩,
                 ⟨TType.expense, "rent".toList, 500⟩,
                 ⟨TType.expense, "dining out".toList, 60⟩] +
      wants_total [⟨TType.income, "salary".toList, 1000⟩,
                   ⟨TType.expense, "Netflix Subscription".toList, 100⟩,
                   ⟨TType.expense, "rent".toList, 500⟩,
                   ⟨TType.expense, "dining out".toList, 60⟩] ≤
      total_expenses [⟨TType.income, "salary".toList, 1000⟩,
                      ⟨TType.expense, "Netflix Subscription".toList, 100⟩,
                      ⟨TType.expense, "rent".toList, 500⟩,
                      ⟨TType.expense, "dining out".toList, 60⟩] := by
  have h : ∀ t ∈ ([⟨TType.income, "salary".toList, 1000⟩,
             ⟨TType.expense, "Netflix Subscription".toList, 100⟩,
             ⟨TType.expense, "rent".toList, 500⟩,
             ⟨TType.expense, "dining out".toList, 60⟩] : List Transaction),
      0 ≤ t.amount := by
    intro t htm
    fin_cases htm <;> norm_num
  exact ⟨h, C10_buckets_le_total_expenses _ h⟩

/-- Bounds used for C1: for every integer equity value in [20, 80], the sum
`equity + round(0.7 * remaining) + round(0.2 * remaining)` lies in [92, 98]. -/
theorem alloc_sum_core_bounds :
    ∀ e ∈ Finset.Icc (20 : ℤ) 80,
      92 ≤ e + pyRound (((100 - e : ℤ) : ℚ) * (7/10)) +
        pyRound (((100 - e : ℤ) : ℚ) * (2/10)) ∧
      e + pyRound (((100 - e : ℤ) : ℚ) * (7/10)) +
        pyRound (((100 - e : ℤ) : ℚ) * (2/10)) ≤ 98 := by
  with_unfolding_all decide

/-- For ages in [20, 80] the equity allocation lands in [20, 80] on every
risk-tolerance branch. -/
theorem equity_allocation_mem (p : Profile) (h1 : 20 ≤ p.age) (h2 : p.age ≤ 80) :
    20 ≤ equity_allocation p ∧ equity_allocation p ≤ 80 := by
  simp only [equity_allocation]
  split_ifs <;> omega

/-- C1 counterexample: for age 25 with risk "aggressive", the allocation is
equity 80, debt 14, gold 4, whose sum 98 is not within 1 of 100 — debt and
gold cover only 90% of the non-equity remainder, so the three percentages do
not sum to 100 ± 1. -/
theorem C1_counterexample :
    (calculate_asset_allocation
        { age := 25, risk_tolerance := "aggressive", monthly_salary := 0,
          monthly_expenses := 0, existing_investments := 0, debt_amount := 0 }).equity +
      (calculate_asset_allocation
        { age := 25, risk_tolerance := "aggressive", monthly_salary := 0,
          monthly_expenses := 0, existing_investments := 0, debt_amount := 0 }).debt +
      (calculate_asset_allocation
        { age := 25, risk_tolerance := "aggressive", monthly_salary := 0,
          monthly_expenses := 0, existing_investments := 0, debt_amount := 0 }).gold = 98 ∧
    ¬ (99 ≤ (98 : ℤ) ∧ (98 : ℤ) ≤ 101) := by
  with_unfolding_all decide

/-- C1 (amended): for every profile whose age lies in [20, 80], the three
integer percentages satisfy `92 ≤ equity + debt + gold ≤ 98`: the sum falls
short of 100 by roughly 10% of the non-equity remainder, because
`debt = remaining * 0.7` and `gold = remaining * 0.2` leave `remaining * 0.1`
unallocated, and each field is rounded independently. -/
theorem C1_amended_sum_bounds (p : Profile) (h1 : 20 ≤ p.age) (h2 : p.age ≤ 80) :
    92 ≤ (calculate_asset_allocation p).equity + (calculate_asset_allocation p).debt +
      (calculate_asset_allocation p).gold ∧
    (calculate_asset_allocation p).equity + (calculate_asset_allocation p).debt +
      (calculate_asset_allocation p).gold ≤ 98 := by
  obtain ⟨hl, hu⟩ := equity_allocation_mem p h1 h2
  have hb := alloc_sum_core_bounds (equity_allocation p) (Finset.mem_Icc.mpr ⟨hl, hu⟩)
  have he : (calculate_asset_allocation p).equity = equity_allocation p := by
    simp [calculate_asset_allocation, pyRound_intCast]
  have hd : (calculate_asset_allocation p).debt =
      pyRound (((100 - equity_allocation p : ℤ) : ℚ) * (7/10)) := by
    simp [calculate_asset_allocation]
  have hg : (calculate_asset_allocation p).gold =
      pyRound (((100 - equity_allocation p : ℤ) : ℚ) * (2/10)) := by
    simp [calculate_asset_allocation]
  rw [he, hd, hg]
  exact hb

/-- Witness for C1 (amended) at age 30, risk "moderate" (sum is 97 there). -/
theorem C1_amended_sum_bounds_witness :
    (20 ≤ ({ age := 30, risk_tolerance := "moderate", monthly_salary := 0,
             monthly_expenses := 0, existing_investments := 0,
             debt_amount := 0 } : Profile).age ∧
     ({ age := 30, risk_tolerance := "moderate", monthly_salary := 0,
        monthly_expenses := 0, existing_investments := 0,
        debt_amount := 0 } : Profile).age ≤ 80) ∧
    (92 ≤ (calculate_asset_allocation
        { age := 30, risk_tolerance := "moderate", monthly_salary := 0,
          monthly_expenses := 0, existing_investments := 0, debt_amount := 0 }).equity +
      (calculate_asset_allocation
        { age := 30, risk_tolerance := "moderate", monthly_salary := 0,
          monthly_expenses := 0, existing_investments := 0, debt_amount := 0 }).debt +
      (calculate_asset_allocation
        { age := 30, risk_tolerance := "moderate", monthly_salary := 0,
          monthly_expenses := 0, existing_investments := 0, debt_amount := 0 }).gold ∧
     (calculate_asset_allocation
        { age := 30, risk_tolerance := "moderate", monthly_salary := 0,
          monthly_expenses := 0, existing_investments := 0, debt_amount := 0 }).equity +
      (calculate_asset_allocation
        { age := 30, risk_tolerance := "moderate", monthly_salary := 0,
          monthly_expenses := 0, existing_investments := 0, debt_amount := 0 }).debt +
      (calculate_asset_allocation
        { age := 30, risk_tolerance := "moderate", monthly_salary := 0,
          monthly_expenses := 0, existing_investments := 0, debt_amount := 0 }).gold ≤ 98) :=
  ⟨⟨by decide, by decide⟩,
   C1_amended_sum_bounds
     { age := 30, risk_tolerance := "moderate", monthly_salary := 0,
       monthly_expenses := 0, existing_investments := 0, debt_amount := 0 }
     (by decide) (by decide)⟩

/-- The emergency-fund sub-score is never negative. -/
theorem score_emergency_nonneg (p : Profile) : 0 ≤ score_emergency p := by
  simp only [score_emergency]
  split_ifs <;> norm_num

/-- The debt-to-income sub-score is never negative. -/
theorem score_debt_nonneg (p : Profile) : 0 ≤ score_debt p := by
  simp only [score_debt]
  split_ifs <;> norm_num

/-- The savings-rate sub-score is never negative. -/
theorem score_savings_nonneg (ts : List Transaction) : 0 ≤ score_savings ts := by
  simp only [score_savings]
  split_ifs <;> norm_num

/-- The goal-progress sub-score is never negative when all goals have
non-negative current amounts. -/
theorem score_goals_nonneg (gs : List Goal)
    (h : ∀ g ∈ gs, 0 ≤ g.current_amount) : 0 ≤ score_goals gs := by
  simp only [score_goals]
  split_ifs with hemp
  · norm_num
  · apply mul_nonneg _ (by norm_num : (0:ℚ) ≤ 25)
    apply div_nonneg _ (Nat.cast_nonneg _)
    apply List.sum_nonneg
    intro x hx
    simp only [List.mem_map] at hx
    obtain ⟨g, hg, rfl⟩ := hx
    split_ifs with htg
    · exact le_min (div_nonneg (h g hg) (le_of_lt htg)) zero_le_one
    · exact le_refl 0

/-- C4: under the §3 preconditions (non-negative monetary fields, goals with
positive targets and non-negative current amounts), the financial health
score is an integer in [0, 100]. -/
theorem C4_health_score_range (p : Profile) (ts : List Transaction) (gs : List Goal)
    (_hsal : 0 ≤ p.monthly_salary) (_hexp : 0 ≤ p.monthly_expenses)
    (_hinv : 0 ≤ p.existing_investments) (_hdebt : 0 ≤ p.debt_amount)
    (_hts : ∀ t ∈ ts, 0 ≤ t.amount)
    (hgs : ∀ g ∈ gs, 0 < g.target_amount ∧ 0 ≤ g.current_amount) :
    0 ≤ calculate_financial_health_score p ts gs ∧
    calculate_financial_health_score p ts gs ≤ 100 := by
  simp only [calculate_financial_health_score]
  constructor
  · apply le_min _ (by norm_num)
    apply pyRound_nonneg
    have h1 := score_emergency_nonneg p
    have h2 := score_debt_nonneg p
    have h3 := score_savings_nonneg ts
    have h4 := score_goals_nonneg gs (fun g hg => (hgs g hg).2)
    linarith
  · exact min_le_right _ _

/-- Witness for C4 at a concrete profile, transaction list and goal list. -/
theorem C4_health_score_range_witness :
    (0 ≤ ({ age := 40, risk_tolerance := "moderate", monthly_salary := 2000,
            monthly_expenses := 500, existing_investments := 100,
            debt_amount := 50 } : Profile).monthly_salary ∧
     0 ≤ ({ age := 40, risk_tolerance := "moderate", monthly_salary := 2000,
            monthly_expenses := 500, existing_investments := 100,
            debt_amount := 50 } : Profile).monthly_expenses ∧
     0 ≤ ({ age := 40, risk_tolerance := "moderate", monthly_salary := 2000,
            monthly_expenses := 500, existing_investments := 100,
            debt_amount := 50 } : Profile).existing_investments ∧
     0 ≤ ({ age := 40, risk_tolerance := "moderate", monthly_salary := 2000,
            monthly_expenses := 500, existing_investments := 100,
            debt_amount := 50 } : Profile).debt_amount ∧
     (∀ t ∈ ([⟨TType.income, "salary".toList, 2000⟩] : List Transaction), 0 ≤ t.amount) ∧
     (∀ g ∈ ([⟨100, 25, ⟨2026, 1, 1⟩⟩] : List Goal),
        0 < g.target_amount ∧ 0 ≤ g.current_amount)) ∧
    (0 ≤ calculate_financial_health_score
        { age := 40, risk_tolerance := "moderate", monthly_salary := 2000,
          monthly_expenses := 500, existing_investments := 100, debt_amount := 50 }
        [⟨TType.income, "salary".toList, 2000⟩]
        [⟨100, 25, ⟨2026, 1, 1⟩⟩] ∧
     calculate_financial_health_score
        { age := 40, risk_tolerance := "moderate", monthly_salary := 2000,
          monthly_expenses := 500, existing_investments := 100, debt_amount := 50 }
        [⟨TType.income, "salary".toList, 2000⟩]
        [⟨100, 25, ⟨2026, 1, 1⟩⟩] ≤ 100) := by
  have hts : ∀ t ∈ ([⟨TType.income, "salary".toList, 2000⟩] : List Transaction),
      0 ≤ t.amount := by
    intro t htm
    fin_cases htm <;> norm_num
  have hgs : ∀ g ∈ ([⟨100, 25, ⟨2026, 1, 1⟩⟩] : List Goal),
      0 < g.target_amount ∧ 0 ≤ g.current_amount := by
    intro g hgm
    fin_cases hgm <;> constructor <;> norm_num
  exact ⟨⟨by norm_num, by norm_num, by norm_num, by norm_num, hts, hgs⟩,
    C4_health_score_range _ _ _ (by norm_num) (by norm_num) (by norm_num)
      (by norm_num) hts hgs⟩

/-- C6: a profile with at least 6 months of expenses in investments, debt
below 20% of annual salary, a savings rate of at least 0.3 on a non-empty
transaction list with positive income, and a non-empty goal list in which
every goal is fully funded, scores exactly 100. -/
theorem C6_perfect_score (p : Profile) (ts : List Transaction) (gs : List Goal)
    (h1 : 6 * p.monthly_expenses ≤ p.existing_investments)
    (h2 : 0 < p.monthly_expenses)
    (h3 : p.debt_amount < 2/10 * (p.monthly_salary * 12))
    (h4 : 0 < p.monthly_salary)
    (h5 : ts ≠ [])
    (h6 : 0 < total_income ts)
    (h7 : 3/10 ≤ (total_income ts - total_expenses ts) / total_income ts)
    (h8 : gs ≠ [])
    (h9 : ∀ g ∈ gs, 0 < g.target_amount ∧ g.target_amount ≤ g.current_amount) :
    calculate_financial_health_score p ts gs = 100 := by
  have e1 : score_emergency p = 25 := by
    simp only [score_emergency]
    rw [if_pos h2, if_pos ((le_div_iff₀ h2).mpr h1)]
  have e2 : score_debt p = 25 := by
    have hb : 0 < p.monthly_salary * 12 := by linarith
    simp only [score_debt]
    rw [if_pos h4, if_pos ((div_lt_iff₀ hb).mpr h3)]
  have e3 : score_savings ts = 25 := by
    have hne : ts.isEmpty = false := by
      simp [List.isEmpty_iff, h5]
    simp only [score_savings, hne]
    rw [if_neg (by simp), if_pos h6, if_pos h7]
  have e4 : score_goals gs = 25 := by
    have hne : gs.isEmpty = false := by
      simp [List.isEmpty_iff, h8]
    have hlen : (gs.length : ℚ) ≠ 0 := by
      have := List.length_pos.mpr h8
      positivity
    have hmap : gs.map (fun g =>
        if g.target_amount > 0 then min (g.current_amount / g.target_amount) 1
        else 0) = gs.map (fun _ => (1:ℚ)) := by
      apply List.map_congr_left
      intro g hg
      obtain ⟨htg, hcg⟩ := h9 g hg
      rw [if_pos htg]
      exact min_eq_right ((le_div_iff₀ htg).mpr (by linarith))
    simp only [score_goals, hne]
    rw [if_neg (by simp), hmap]
    simp [div_self hlen]
  simp only [calculate_financial_health_score, e1, e2, e3, e4]
  norm_num [pyRound_hundred]

/-- Witness for C6 at a concrete perfect-health input. -/
theorem C6_perfect_score_witness :
    (6 * ({ age := 30, risk_tolerance := "moderate", monthly_salary := 1000,
            monthly_expenses := 100, existing_investments := 600,
            debt_amount := 0 } : Profile).monthly_expenses ≤
       ({ age := 30, risk_tolerance := "moderate", monthly_salary := 1000,
          monthly_expenses := 100, existing_investments := 600,
          debt_amount := 0 } : Profile).existing_investments ∧
     0 < ({ age := 30, risk_tolerance := "moderate", monthly_salary := 1000,
            monthly_expenses := 100, existing_investments := 600,
            debt_amount := 0 } : Profile).monthly_expenses ∧
     ({ age := 30, risk_tolerance := "moderate", monthly_salary := 1000,
        monthly_expenses := 100, existing_investments := 600,
        debt_amount := 0 } : Profile).debt_amount <
       2/10 * (({ age := 30, risk_tolerance := "moderate", monthly_salary := 1000,
                  monthly_expenses := 100, existing_investments := 600,
                  debt_amount := 0 } : Profile).monthly_salary * 12) ∧
     0 < ({ age := 30, risk_tolerance := "moderate", monthly_salary := 1000,
            monthly_expenses := 100, existing_investments := 600,
            debt_amount := 0 } : Profile).monthly_salary ∧
     ([⟨TType.income, "salary".toList, 1000⟩,
       ⟨TType.expense, "rent".toList, 100⟩] : List Transaction) ≠ [] ∧
     0 < total_income [⟨TType.income, "salary".toList, 1000⟩,
                       ⟨TType.expense, "rent".toList, 100⟩] ∧
     3/10 ≤ (total_income [⟨TType.income, "salary".toList, 1000⟩,
                           ⟨TType.expense, "rent".toList, 100⟩] -
             total_expenses [⟨TType.income, "salary".toList, 1000⟩,
                             ⟨TType.expense, "rent".toList, 100⟩]) /
            total_income [⟨TType.income, "salary".toList, 1000⟩,
                          ⟨TType.expense, "rent".toList, 100⟩] ∧
     ([⟨100, 100, ⟨2026, 1, 1⟩⟩] : List Goal) ≠ [] ∧
     (∀ g ∈ ([⟨100, 100, ⟨2026, 1, 1⟩⟩] : List Goal),
        0 < g.target_amount ∧ g.target_amount ≤ g.current_amount)) ∧
    calculate_financial_health_score
      { age := 30, risk_tolerance := "moderate", monthly_salary := 1000,
        monthly_expenses := 100, existing_investments := 600, debt_amount := 0 }
      [⟨TType.income, "salary".toList, 1000⟩, ⟨TType.expense, "rent".toList, 100⟩]
      [⟨100, 100, ⟨2026, 1, 1⟩⟩] = 100 := by
  have h9 : ∀ g ∈ ([⟨100, 100, ⟨2026, 1, 1⟩⟩] : List Goal),
      0 < g.target_amount ∧ g.target_amount ≤ g.current_amount := by
    intro g hgm
    fin_cases hgm <;> constructor <;> norm_num
  refine ⟨⟨by norm_num, by norm_num, by norm_num, by norm_num, by simp,
    by with_unfolding_all rfl, by with_unfolding_all rfl, by simp, h9⟩, ?_⟩
  exact C6_perfect_score _ _ _ (by norm_num) (by norm_num) (by norm_num)
    (by norm_num) (by simp) (by with_unfolding_all rfl)
    (by with_unfolding_all rfl) (by simp) h9
